import Mathlib

/-!
Verification of the ddns-agent dynamic-DNS synchronization agent
(`src/main.rs`) by shallow embedding into Lean 4.

Rust strings are modelled as `List Char` (`Str`).  Network effects are
modelled by oracle functions from the request the program builds to the
outcome the world returns (`FetchResult`): `transportErr` for a failed
`send()` (the first `?`/`.context` on the request), `protocolErr` for a
response body that does not parse (`resp.json()` failing), and `ok` for a
parsed JSON body.  Besides its `Except` result, each embedded operation
also returns the request it issued, so that theorems can speak about the
calls the program makes.
-/

namespace DdnsAgent

/-- Rust `String`/`&str`, modelled as a list of characters. -/
abbrev Str := List Char

/-! ## Resolver: `extract_root_domain` (main.rs lines 35-42) -/

/-- Embedding of Rust `str::split('.')`: tail of the splitter with the
characters accumulated for the current field (in reverse). -/
def splitDotAux : List Char → List Char → List (List Char)
  | [], acc => [acc.reverse]
  | c :: cs, acc =>
    if c = '.' then acc.reverse :: splitDotAux cs []
    else splitDotAux cs (c :: acc)

/-- Rust `dns_name.split('.').collect::<Vec<_>>()`. -/
def splitDot (s : Str) : List Str := splitDotAux s []

/-- Rust `Vec<&str>::join(".")`: the fields with a `'.'` between each pair. -/
def joinDot : List Str → Str
  | [] => []
  | [l] => l
  | l :: ls => l ++ '.' :: joinDot ls

/-- `extract_root_domain` (main.rs lines 35-42): split on `'.'`; with at
least two parts, join the last two with `'.'`; otherwise return the input. -/
def extract_root_domain (dns_name : Str) : Str :=
  let parts := splitDot dns_name
  if parts.length ≥ 2 then joinDot (parts.drop (parts.length - 2))
  else dns_name

/-! ## Provider response shapes (main.rs lines 7-32) -/

/-- `CfResponse` (main.rs lines 7-10). -/
structure CfResponse where
  success : Bool
  deriving DecidableEq, Repr

/-- `CfZone` (main.rs lines 18-21). -/
structure CfZone where
  id : Str
  deriving DecidableEq, Repr

/-- `CfZonesResponse` (main.rs lines 12-16). -/
structure CfZonesResponse where
  success : Bool
  result : List CfZone
  deriving DecidableEq, Repr

/-- `CfDnsRecord` (main.rs lines 29-32). -/
structure CfDnsRecord where
  id : Str
  deriving DecidableEq, Repr

/-- `CfDnsRecordsResponse` (main.rs lines 23-27). -/
structure CfDnsRecordsResponse where
  success : Bool
  result : List CfDnsRecord
  deriving DecidableEq, Repr

/-- Error taxonomy of the three provider calls: network failure on
`send()`, unparseable response body on `json()`, and the `anyhow!`
not-found errors of `get_zone_id` / `get_record_id`. -/
inductive CfErr where
  | transport
  | protocol
  | notFound
  deriving DecidableEq, Repr

/-- Outcome the world returns for one HTTP request: failed send, body that
does not parse, or a parsed body of type `α`. -/
inductive FetchResult (α : Type) where
  | transportErr
  | protocolErr
  | ok (val : α)
  deriving DecidableEq, Repr

/-! ## Provider requests -/

/-- The `GET /zones?name={domain}` request of `get_zone_id`
(main.rs lines 47-53), with its bearer token. -/
structure ZonesQuery where
  bearer : Str
  name : Str
  deriving DecidableEq, Repr

/-- The `GET /zones/{zone_id}/dns_records?type=A&name={dns_name}` request
of `get_record_id` (main.rs lines 71-81), with its bearer token. -/
structure DnsRecordsQuery where
  bearer : Str
  zone_id : Str
  rtype : Str
  name : Str
  deriving DecidableEq, Repr

/-- The JSON body of the update request (main.rs lines 115-121). -/
structure UpdateBody where
  rtype : Str
  name : Str
  content : Str
  ttl : Nat
  proxied : Bool
  deriving DecidableEq, Repr

/-- The `PUT /zones/{zone_id}/dns_records/{record_id}` request of
`update_dns` (main.rs lines 110-128), with its bearer token and body. -/
structure UpdateRequest where
  bearer : Str
  zone_id : Str
  record_id : Str
  body : UpdateBody
  deriving DecidableEq, Repr

/-! ## Provider client -/

/-- `get_zone_id` (main.rs lines 45-62): derive the root domain, issue the
zone-listing request; propagate send/parse failures; `NotFound` when the
success flag is false or the result list is empty; otherwise the id of
`result[0]`.  Returns the result together with the request issued. -/
def get_zone_id (cf_token dns_name : Str)
    (net : ZonesQuery → FetchResult CfZonesResponse) :
    Except CfErr Str × ZonesQuery :=
  let domain := extract_root_domain dns_name
  let q : ZonesQuery := ⟨cf_token, domain⟩
  match net q with
  | .transportErr => (.error .transport, q)
  | .protocolErr => (.error .protocol, q)
  | .ok data =>
    if !data.success || data.result.isEmpty then (.error .notFound, q)
    else (.ok (data.result.headD ⟨[]⟩).id, q)

/-- `get_record_id` (main.rs lines 65-93): issue the record-listing request
for type `A` and the full DNS name; propagate send/parse failures;
`NotFound` when the success flag is false or the result list is empty;
otherwise the id of `result[0]`.  Returns the result with the request. -/
def get_record_id (cf_token zone_id dns_name : Str)
    (net : DnsRecordsQuery → FetchResult CfDnsRecordsResponse) :
    Except CfErr Str × DnsRecordsQuery :=
  let q : DnsRecordsQuery := ⟨cf_token, zone_id, "A".data, dns_name⟩
  match net q with
  | .transportErr => (.error .transport, q)
  | .protocolErr => (.error .protocol, q)
  | .ok data =>
    if !data.success || data.result.isEmpty then (.error .notFound, q)
    else (.ok (data.result.headD ⟨[]⟩).id, q)

/-- The console lines `update_dns` prints (main.rs lines 131-135). -/
inductive UpdateLog where
  | okUpdated (ip : Str)
  | errFailedUpdate
  deriving DecidableEq, Repr

/-- `update_dns` (main.rs lines 102-137): build the fixed JSON body, issue
the PUT; propagate send/parse failures as errors; on a parsed body log
`[OK]` or `[ERR]` according to the success flag and return `Ok(())` either
way.  Returns (result, log lines) with the request issued. -/
def update_dns (ip cf_token zone_id record_id dns_name : Str)
    (net : UpdateRequest → FetchResult CfResponse) :
    (Except CfErr Unit × List UpdateLog) × UpdateRequest :=
  let body : UpdateBody := ⟨"A".data, dns_name, ip, 1, false⟩
  let req : UpdateRequest := ⟨cf_token, zone_id, record_id, body⟩
  match net req with
  | .transportErr => ((.error .transport, []), req)
  | .protocolErr => ((.error .protocol, []), req)
  | .ok data =>
    if data.success then ((.ok (), [.okUpdated ip]), req)
    else ((.ok (), [.errFailedUpdate]), req)

/-! ## Configuration (main.rs lines 141-151) -/

/-- Embedding of Rust `u64::from_str`: optional leading `'+'`, then at
least one ASCII digit, value below `2 ^ 64`; anything else fails. -/
def parse_u64 (s : Str) : Option Nat :=
  let digits := match s with
    | '+' :: rest => rest
    | _ => s
  if digits = [] then none
  else if digits.all Char.isDigit then
    let v := digits.foldl (fun acc c => acc * 10 + (c.toNat - 48)) 0
    if v < 2 ^ 64 then some v else none
  else none

/-- The poll interval computation (main.rs lines 144-147):
`env::var("DURATION_SLEEP_MS").unwrap_or_else(|_| "5000").parse().unwrap_or(5000)`.
`v` is the environment variable's value, `none` when unset. -/
def duration_sleep_ms (v : Option Str) : Nat :=
  (parse_u64 (v.getD ("5000".data))).getD 5000

/-- The environment variables `main` reads (main.rs lines 144-151). -/
structure EnvVars where
  cf_api_token : Option Str
  dns_name : Option Str
  duration_ms : Option Str

/-- Startup failures of `main`: a missing required environment variable
(the `.context(...)?` on `env::var`) or a failed initial lookup. -/
inductive StartErr where
  | configError (var : Str)
  | lookup (e : CfErr)
  deriving DecidableEq, Repr

/-- The immutable values `main` holds when it enters the loop. -/
structure Config where
  cf_token : Str
  dns_name : Str
  zone_id : Str
  record_id : Str
  duration_ms : Nat
  deriving DecidableEq, Repr

/-- One provider API call, as recorded in a trace. -/
inductive ProviderCall where
  | zones (q : ZonesQuery)
  | records (q : DnsRecordsQuery)
  | update (r : UpdateRequest)
  deriving DecidableEq, Repr

/-- Whether a recorded provider call is an update (write) call. -/
def ProviderCall.isUpdate : ProviderCall → Bool
  | .update _ => true
  | _ => false

/-- The startup phase of `main` (main.rs lines 141-160): read the poll
interval, require `CF_API_TOKEN` and `DNS_NAME`, then resolve the zone id
and the record id, propagating any failure.  Returns the outcome together
with the trace of provider calls issued. -/
def startup (env : EnvVars)
    (znet : ZonesQuery → FetchResult CfZonesResponse)
    (rnet : DnsRecordsQuery → FetchResult CfDnsRecordsResponse) :
    Except StartErr Config × List ProviderCall :=
  let duration := duration_sleep_ms env.duration_ms
  match env.cf_api_token with
  | none => (.error (.configError ("CF_API_TOKEN".data)), [])
  | some cf_token =>
    match env.dns_name with
    | none => (.error (.configError ("DNS_NAME".data)), [])
    | some dns_name =>
      let z := get_zone_id cf_token dns_name znet
      match z.1 with
      | .error e => (.error (.lookup e), [.zones z.2])
      | .ok zone_id =>
        let r := get_record_id cf_token zone_id dns_name rnet
        match r.1 with
        | .error e => (.error (.lookup e), [.zones z.2, .records r.2])
        | .ok record_id =>
          (.ok ⟨cf_token, dns_name, zone_id, record_id, duration⟩,
           [.zones z.2, .records r.2])

/-! ## The sync loop (main.rs lines 163-181) -/

/-- Outcome of `get_public_ip()` as `main` matches it: `Err(e)`,
`Ok(None)`, or `Ok(Some(ip))` with `ip.to_string()` as a `Str`. -/
inductive IpResult where
  | errIp
  | noIp
  | gotIp (ip : Str)
  deriving DecidableEq, Repr

/-- What one loop iteration leaves behind: the new value of the mutable
`last_ip` and the update calls it issued. -/
structure IterResult where
  last_ip : Str
  updateCalls : List UpdateRequest
  deriving DecidableEq, Repr

/-- One iteration of the running loop (main.rs lines 163-178): on a
discovered IP differing from `last_ip`, call `update_dns`; commit
`last_ip := ip` exactly when the call returned `Ok`; on `Err` keep
`last_ip`.  On `Ok(None)` or `Err` from discovery, only log. -/
def loopIter (cfg : Config) (net : UpdateRequest → FetchResult CfResponse)
    (last_ip : Str) (ipres : IpResult) : IterResult :=
  match ipres with
  | .gotIp ip_str =>
    if ip_str ≠ last_ip then
      let r := update_dns ip_str cfg.cf_token cfg.zone_id cfg.record_id
        cfg.dns_name net
      match r.1.1 with
      | .error _ => ⟨last_ip, [r.2]⟩
      | .ok _ => ⟨ip_str, [r.2]⟩
    else ⟨last_ip, []⟩
  | .noIp => ⟨last_ip, []⟩
  | .errIp => ⟨last_ip, []⟩

end DdnsAgent

namespace DdnsAgent

/-! ## Lemmas about the splitter -/

/-- Running the splitter over dot-free input yields a single field:
the pending accumulator followed by that input. -/
theorem splitDotAux_no_dot : ∀ (l : Str) (acc : List Char), ('.' : Char) ∉ l →
    splitDotAux l acc = [acc.reverse ++ l]
  | [], acc, _ => by simp [splitDotAux]
  | c :: cs, acc, h => by
    have hc : ¬ c = '.' := fun hc => h (by simp [hc])
    have hcs : ('.' : Char) ∉ cs := fun hm => h (List.mem_cons_of_mem _ hm)
    simp only [splitDotAux, if_neg hc]
    rw [splitDotAux_no_dot cs (c :: acc) hcs]
    simp

/-- The splitter closes the current field at the first dot. -/
theorem splitDotAux_append_dot : ∀ (l : Str) (acc : List Char) (rest : Str),
    ('.' : Char) ∉ l →
    splitDotAux (l ++ '.' :: rest) acc = (acc.reverse ++ l) :: splitDotAux rest []
  | [], acc, rest, _ => by simp [splitDotAux]
  | c :: cs, acc, rest, h => by
    have hc : ¬ c = '.' := fun hc => h (by simp [hc])
    have hcs : ('.' : Char) ∉ cs := fun hm => h (List.mem_cons_of_mem _ hm)
    show (if c = '.' then acc.reverse :: splitDotAux (cs ++ '.' :: rest) []
        else splitDotAux (cs ++ '.' :: rest) (c :: acc)) =
      (acc.reverse ++ c :: cs) :: splitDotAux rest []
    rw [if_neg hc, splitDotAux_append_dot cs (c :: acc) rest hcs]
    simp

/-- Splitting on `'.'` inverts joining with `'.'` when no label contains a
dot. -/
theorem splitDot_joinDot : ∀ (labels : List Str), labels ≠ [] →
    (∀ l ∈ labels, ('.' : Char) ∉ l) → splitDot (joinDot labels) = labels
  | [], h, _ => absurd rfl h
  | [x], _, hd => by
    show splitDotAux x [] = [x]
    rw [splitDotAux_no_dot x [] (hd x (by simp))]
    simp
  | x :: y :: ys, _, hd => by
    have hx : ('.' : Char) ∉ x := hd x (by simp)
    have hrest : ∀ l ∈ y :: ys, ('.' : Char) ∉ l :=
      fun l hl => hd l (List.mem_cons_of_mem _ hl)
    show splitDotAux (x ++ '.' :: joinDot (y :: ys)) [] = x :: y :: ys
    rw [splitDotAux_append_dot x [] _ hx]
    have ih : splitDotAux (joinDot (y :: ys)) [] = y :: ys :=
      splitDot_joinDot (y :: ys) (by simp) hrest
    rw [ih]
    simp

/-- C3: for every input made of at least two dot-free labels,
`extract_root_domain` returns exactly the last two labels joined by
`'.'`; for every input with no dot (fewer than two labels), it returns
the input unchanged.  The function is a pure Lean function, hence
deterministic and side-effect free. -/
theorem extract_root_domain_spec :
    (∀ (pre : List Str) (a b : Str),
      (∀ l ∈ pre, ('.' : Char) ∉ l) → ('.' : Char) ∉ a → ('.' : Char) ∉ b →
      extract_root_domain (joinDot (pre ++ [a, b])) = a ++ '.' :: b)
    ∧ ∀ s : Str, ('.' : Char) ∉ s → extract_root_domain s = s := by
  constructor
  · intro pre a b hpre ha hb
    have hall : ∀ l ∈ pre ++ [a, b], ('.' : Char) ∉ l := by
      intro l hl
      rcases List.mem_append.1 hl with h | h
      · exact hpre l h
      · simp only [List.mem_cons, List.not_mem_nil, or_false] at h
        rcases h with rfl | rfl
        · exact ha
        · exact hb
    have hsplit : splitDot (joinDot (pre ++ [a, b])) = pre ++ [a, b] :=
      splitDot_joinDot _ (by simp) hall
    show (if (splitDot (joinDot (pre ++ [a, b]))).length ≥ 2 then
        joinDot ((splitDot (joinDot (pre ++ [a, b]))).drop
          ((splitDot (joinDot (pre ++ [a, b]))).length - 2))
      else joinDot (pre ++ [a, b])) = a ++ '.' :: b
    rw [hsplit]
    have hlen : (pre ++ [a, b]).length = pre.length + 2 := by simp
    have hge : (pre ++ [a, b]).length ≥ 2 := by omega
    rw [if_pos hge, hlen]
    have hdrop : (pre ++ [a, b]).drop (pre.length + 2 - 2) = [a, b] := by
      have : pre.length + 2 - 2 = pre.length := by omega
      rw [this]
      exact List.drop_left pre [a, b]
    rw [hdrop]
    rfl
  · intro s hs
    have hsplit : splitDot s = [s] := by
      show splitDotAux s [] = [s]
      rw [splitDotAux_no_dot s [] hs]
      rfl
    show (if (splitDot s).length ≥ 2 then
        joinDot ((splitDot s).drop ((splitDot s).length - 2))
      else s) = s
    rw [hsplit]
    rfl

/-- Witness for C3: `extract_root_domain` keeps the last two labels of
a three-label name and leaves a dot-free name unchanged. -/
theorem extract_root_domain_spec_witness :
    extract_root_domain (joinDot ["sub".data, "example".data, "com".data]) =
      "example".data ++ '.' :: "com".data
    ∧ extract_root_domain ("localhost".data) = "localhost".data :=
  ⟨extract_root_domain_spec.1 ["sub".data] ("example".data) ("com".data)
      (by decide) (by decide) (by decide),
    extract_root_domain_spec.2 ("localhost".data) (by decide)⟩

/-! ## The requests each provider call issues -/

/-- `get_zone_id` always issues the zone query for the root domain of the
configured DNS name, whatever the network returns. -/
theorem get_zone_id_req (cf_token dns_name : Str)
    (net : ZonesQuery → FetchResult CfZonesResponse) :
    (get_zone_id cf_token dns_name net).2 = ⟨cf_token, extract_root_domain dns_name⟩ := by
  cases hn : net ⟨cf_token, extract_root_domain dns_name⟩ with
  | transportErr => simp [get_zone_id, hn]
  | protocolErr => simp [get_zone_id, hn]
  | ok data => cases hs : (!data.success || data.result.isEmpty) <;>
      simp [get_zone_id, hn, hs]

/-- `get_record_id` always issues the record query for type `A` and the
full DNS name, whatever the network returns. -/
theorem get_record_id_req (cf_token zone_id dns_name : Str)
    (net : DnsRecordsQuery → FetchResult CfDnsRecordsResponse) :
    (get_record_id cf_token zone_id dns_name net).2 =
      ⟨cf_token, zone_id, "A".data, dns_name⟩ := by
  cases hn : net ⟨cf_token, zone_id, "A".data, dns_name⟩ with
  | transportErr => simp [get_record_id, hn]
  | protocolErr => simp [get_record_id, hn]
  | ok data => cases hs : (!data.success || data.result.isEmpty) <;>
      simp [get_record_id, hn, hs]

/-- `update_dns` always issues the same PUT request, whatever the network
returns: the configured ids and the fixed body. -/
theorem update_dns_req (ip cf_token zone_id record_id dns_name : Str)
    (net : UpdateRequest → FetchResult CfResponse) :
    (update_dns ip cf_token zone_id record_id dns_name net).2 =
      ⟨cf_token, zone_id, record_id, ⟨"A".data, dns_name, ip, 1, false⟩⟩ := by
  cases hn : net ⟨cf_token, zone_id, record_id, ⟨"A".data, dns_name, ip, 1, false⟩⟩ with
  | transportErr => simp [update_dns, hn]
  | protocolErr => simp [update_dns, hn]
  | ok data => cases hs : data.success <;> simp [update_dns, hn, hs]

/-- C5: for every call to `update_dns` with new IP `ip` and DNS name
`dns_name`, the PUT request carries exactly the body
`type = "A", name = dns_name, content = ip, ttl = 1, proxied = false`
(and is addressed with the configured zone and record ids and the bearer
token). -/
theorem update_dns_request_body (ip cf_token zone_id record_id dns_name : Str)
    (net : UpdateRequest → FetchResult CfResponse) :
    (update_dns ip cf_token zone_id record_id dns_name net).2 =
      ⟨cf_token, zone_id, record_id, ⟨"A".data, dns_name, ip, 1, false⟩⟩ :=
  update_dns_req ip cf_token zone_id record_id dns_name net

/-- C2: a well-formed provider response to the update PUT never makes
`update_dns` return an error — even with `success = false`, where it only
logs the `[ERR]` line and returns `Ok(())` — while a transport failure or
an unparseable response body makes the call return an error. -/
theorem update_dns_error_taxonomy (ip cf_token zone_id record_id dns_name : Str)
    (net : UpdateRequest → FetchResult CfResponse) :
    (∀ data : CfResponse,
      net ⟨cf_token, zone_id, record_id, ⟨"A".data, dns_name, ip, 1, false⟩⟩ = .ok data →
      (update_dns ip cf_token zone_id record_id dns_name net).1.1 = .ok ()
      ∧ (data.success = false →
        (update_dns ip cf_token zone_id record_id dns_name net).1.2 = [.errFailedUpdate]))
    ∧ (net ⟨cf_token, zone_id, record_id, ⟨"A".data, dns_name, ip, 1, false⟩⟩ = .transportErr →
      (update_dns ip cf_token zone_id record_id dns_name net).1.1 = .error .transport)
    ∧ (net ⟨cf_token, zone_id, record_id, ⟨"A".data, dns_name, ip, 1, false⟩⟩ = .protocolErr →
      (update_dns ip cf_token zone_id record_id dns_name net).1.1 = .error .protocol) := by
  refine ⟨?_, ?_, ?_⟩
  · intro data hn
    cases hs : data.success <;> simp [update_dns, hn, hs]
  · intro hn
    simp [update_dns, hn]
  · intro hn
    simp [update_dns, hn]

/-- Witness for C2: concrete calls with a `success:false` body, a
transport failure, and an unparseable body. -/
theorem update_dns_error_taxonomy_witness :
    (update_dns ("1.2.3.4".data) ("tok".data) ("Z1".data) ("R1".data)
        ("foo.example.com".data) (fun _ => .ok ⟨false⟩)).1.1 = .ok ()
    ∧ (update_dns ("1.2.3.4".data) ("tok".data) ("Z1".data) ("R1".data)
        ("foo.example.com".data) (fun _ => .ok ⟨false⟩)).1.2 = [.errFailedUpdate]
    ∧ (update_dns ("1.2.3.4".data) ("tok".data) ("Z1".data) ("R1".data)
        ("foo.example.com".data) (fun _ => .transportErr)).1.1 = .error .transport
    ∧ (update_dns ("1.2.3.4".data) ("tok".data) ("Z1".data) ("R1".data)
        ("foo.example.com".data) (fun _ => .protocolErr)).1.1 = .error .protocol :=
  have h := (update_dns_error_taxonomy ("1.2.3.4".data) ("tok".data) ("Z1".data)
    ("R1".data) ("foo.example.com".data) (fun _ => .ok ⟨false⟩)).1 ⟨false⟩ rfl
  ⟨h.1, h.2 rfl,
    (update_dns_error_taxonomy ("1.2.3.4".data) ("tok".data) ("Z1".data)
      ("R1".data) ("foo.example.com".data) (fun _ => .transportErr)).2.1 rfl,
    (update_dns_error_taxonomy ("1.2.3.4".data) ("tok".data) ("Z1".data)
      ("R1".data) ("foo.example.com".data) (fun _ => .protocolErr)).2.2 rfl⟩

/-- C4: on a well-formed provider response, zone lookup and record lookup
fail with `NotFound` exactly when the response's success flag is false or
its result list is empty; otherwise each returns the id of the first
element of the provider-returned result list. -/
theorem lookup_not_found_iff (cf_token dns_name zone_id : Str)
    (znet : ZonesQuery → FetchResult CfZonesResponse)
    (rnet : DnsRecordsQuery → FetchResult CfDnsRecordsResponse)
    (zdata : CfZonesResponse) (rdata : CfDnsRecordsResponse)
    (hz : znet ⟨cf_token, extract_root_domain dns_name⟩ = .ok zdata)
    (hr : rnet ⟨cf_token, zone_id, "A".data, dns_name⟩ = .ok rdata) :
    ((get_zone_id cf_token dns_name znet).1 = .error .notFound ↔
      zdata.success = false ∨ zdata.result = [])
    ∧ (∀ z rest, zdata.success = true → zdata.result = z :: rest →
        (get_zone_id cf_token dns_name znet).1 = .ok z.id)
    ∧ ((get_record_id cf_token zone_id dns_name rnet).1 = .error .notFound ↔
      rdata.success = false ∨ rdata.result = [])
    ∧ (∀ r rest, rdata.success = true → rdata.result = r :: rest →
        (get_record_id cf_token zone_id dns_name rnet).1 = .ok r.id) := by
  obtain ⟨zs, zres⟩ := zdata
  obtain ⟨rs, rres⟩ := rdata
  refine ⟨?_, ?_, ?_, ?_⟩
  · cases zs <;> cases zres <;> simp [get_zone_id, hz]
  · intro z rest hzs hres
    simp only at hzs hres
    subst hzs
    subst hres
    simp [get_zone_id, hz]
  · cases rs <;> cases rres <;> simp [get_record_id, hr]
  · intro r rest hrs hres
    simp only at hrs hres
    subst hrs
    subst hres
    simp [get_record_id, hr]

/-- Witness for C4: zone lookup over `success:true, result:[Z1, Z2]`
returns `Z1`; record lookup over `success:false, result:[]` and zone
lookup over `success:true, result:[]` fail with `NotFound`. -/
theorem lookup_not_found_iff_witness :
    (get_zone_id ("tok".data) ("sub.example.com".data)
        (fun _ => .ok ⟨true, [⟨"Z1".data⟩, ⟨"Z2".data⟩]⟩)).1 = .ok ("Z1".data)
    ∧ (get_record_id ("tok".data) ("Z1".data) ("sub.example.com".data)
        (fun _ => .ok ⟨false, []⟩)).1 = .error .notFound
    ∧ (get_zone_id ("tok".data) ("sub.example.com".data)
        (fun _ => .ok ⟨true, []⟩)).1 = .error .notFound :=
  ⟨(lookup_not_found_iff ("tok".data) ("sub.example.com".data) ("Z1".data)
      (fun _ => .ok ⟨true, [⟨"Z1".data⟩, ⟨"Z2".data⟩]⟩) (fun _ => .ok ⟨false, []⟩)
      ⟨true, [⟨"Z1".data⟩, ⟨"Z2".data⟩]⟩ ⟨false, []⟩ rfl rfl).2.1
      ⟨"Z1".data⟩ [⟨"Z2".data⟩] rfl rfl,
    (lookup_not_found_iff ("tok".data) ("sub.example.com".data) ("Z1".data)
      (fun _ => .ok ⟨true, [⟨"Z1".data⟩, ⟨"Z2".data⟩]⟩) (fun _ => .ok ⟨false, []⟩)
      ⟨true, [⟨"Z1".data⟩, ⟨"Z2".data⟩]⟩ ⟨false, []⟩ rfl rfl).2.2.1.mpr (Or.inl rfl),
    (lookup_not_found_iff ("tok".data) ("sub.example.com".data) ("Z1".data)
      (fun _ => .ok ⟨true, []⟩) (fun _ => .ok ⟨false, []⟩)
      ⟨true, []⟩ ⟨false, []⟩ rfl rfl).1.mpr (Or.inr rfl)⟩

/-- C6: when both required environment variables are present, the startup
zone lookup queries the provider with the root domain derived by
`extract_root_domain` from the configured DNS name, and (once the zone id
is resolved) the record lookup queries with the full DNS name and type
`A`; concretely, `foo.example.com` yields a zone query for
`example.com`. -/
theorem startup_lookup_queries (env : EnvVars) (tok name : Str)
    (znet : ZonesQuery → FetchResult CfZonesResponse)
    (rnet : DnsRecordsQuery → FetchResult CfDnsRecordsResponse)
    (htok : env.cf_api_token = some tok) (hname : env.dns_name = some name) :
    (startup env znet rnet).2.head? = some (.zones ⟨tok, extract_root_domain name⟩)
    ∧ (∀ zid, (get_zone_id tok name znet).1 = .ok zid →
        (startup env znet rnet).2 =
          [.zones ⟨tok, extract_root_domain name⟩,
            .records ⟨tok, zid, "A".data, name⟩])
    ∧ extract_root_domain ("foo.example.com".data) = "example.com".data := by
  refine ⟨?_, ?_, by decide⟩
  · cases hz1 : (get_zone_id tok name znet).1 with
    | error e =>
      simp [startup, htok, hname, hz1, get_zone_id_req]
    | ok zid =>
      cases hr1 : (get_record_id tok zid name rnet).1 <;>
        simp [startup, htok, hname, hz1, hr1, get_zone_id_req]
  · intro zid hz1
    cases hr1 : (get_record_id tok zid name rnet).1 <;>
      simp [startup, htok, hname, hz1, hr1, get_zone_id_req, get_record_id_req]

/-- Witness for C6: with `DNS_NAME = foo.example.com` the startup trace is
the zone query for `example.com` followed by the record query for
`type=A, name=foo.example.com`. -/
theorem startup_lookup_queries_witness :
    (startup ⟨some ("tok".data), some ("foo.example.com".data), none⟩
        (fun _ => .ok ⟨true, [⟨"Z1".data⟩]⟩) (fun _ => .ok ⟨true, [⟨"R1".data⟩]⟩)).2 =
      [.zones ⟨"tok".data, "example.com".data⟩,
        .records ⟨"tok".data, "Z1".data, "A".data, "foo.example.com".data⟩] := by
  have h := (startup_lookup_queries
    ⟨some ("tok".data), some ("foo.example.com".data), none⟩
    ("tok".data) ("foo.example.com".data)
    (fun _ => .ok ⟨true, [⟨"Z1".data⟩]⟩) (fun _ => .ok ⟨true, [⟨"R1".data⟩]⟩)
    rfl rfl).2.1 ("Z1".data) rfl
  rw [h]
  decide

/-- C7: if two consecutive iterations observe the same public IP and the
first iteration's update is acknowledged by the provider, then the first
iteration issues exactly one update call and the second issues none — the
second sees the discovered IP equal to the cached `last_ip` and performs
no write, so exactly one update call is issued across the two
iterations. -/
theorem sync_loop_idempotent (cfg : Config) (last_ip ip : Str)
    (net1 net2 : UpdateRequest → FetchResult CfResponse)
    (hneq : ip ≠ last_ip)
    (hok : net1 ⟨cfg.cf_token, cfg.zone_id, cfg.record_id,
      ⟨"A".data, cfg.dns_name, ip, 1, false⟩⟩ = .ok ⟨true⟩) :
    (loopIter cfg net1 last_ip (.gotIp ip)).last_ip = ip
    ∧ (loopIter cfg net1 last_ip (.gotIp ip)).updateCalls.length = 1
    ∧ (loopIter cfg net2
        (loopIter cfg net1 last_ip (.gotIp ip)).last_ip (.gotIp ip)).updateCalls = []
    ∧ (loopIter cfg net1 last_ip (.gotIp ip)).updateCalls.length
      + (loopIter cfg net2
          (loopIter cfg net1 last_ip (.gotIp ip)).last_ip (.gotIp ip)).updateCalls.length
      = 1 := by
  have h1 : loopIter cfg net1 last_ip (.gotIp ip) =
      ⟨ip, [⟨cfg.cf_token, cfg.zone_id, cfg.record_id,
        ⟨"A".data, cfg.dns_name, ip, 1, false⟩⟩]⟩ := by
    simp [loopIter, update_dns, hneq, hok]
  have h2 : loopIter cfg net2 ip (.gotIp ip) = ⟨ip, []⟩ := by
    simp [loopIter]
  rw [h1]
  simp only at h2 ⊢
  rw [h2]
  simp

/-- Witness for C7: first iteration commits `1.2.3.4` after an
acknowledged update; the second iteration with the same IP issues no
call. -/
theorem sync_loop_idempotent_witness :
    (loopIter ⟨"tok".data, "foo.example.com".data, "Z1".data, "R1".data, 5000⟩
        (fun _ => .ok ⟨true⟩) [] (.gotIp ("1.2.3.4".data))).last_ip = "1.2.3.4".data
    ∧ (loopIter ⟨"tok".data, "foo.example.com".data, "Z1".data, "R1".data, 5000⟩
        (fun _ => .ok ⟨true⟩) [] (.gotIp ("1.2.3.4".data))).updateCalls.length = 1
    ∧ (loopIter ⟨"tok".data, "foo.example.com".data, "Z1".data, "R1".data, 5000⟩
        (fun _ => .ok ⟨true⟩)
        (loopIter ⟨"tok".data, "foo.example.com".data, "Z1".data, "R1".data, 5000⟩
          (fun _ => .ok ⟨true⟩) [] (.gotIp ("1.2.3.4".data))).last_ip
        (.gotIp ("1.2.3.4".data))).updateCalls = []
    ∧ (loopIter ⟨"tok".data, "foo.example.com".data, "Z1".data, "R1".data, 5000⟩
        (fun _ => .ok ⟨true⟩) [] (.gotIp ("1.2.3.4".data))).updateCalls.length
      + (loopIter ⟨"tok".data, "foo.example.com".data, "Z1".data, "R1".data, 5000⟩
          (fun _ => .ok ⟨true⟩)
          (loopIter ⟨"tok".data, "foo.example.com".data, "Z1".data, "R1".data, 5000⟩
            (fun _ => .ok ⟨true⟩) [] (.gotIp ("1.2.3.4".data))).last_ip
          (.gotIp ("1.2.3.4".data))).updateCalls.length = 1 :=
  sync_loop_idempotent ⟨"tok".data, "foo.example.com".data, "Z1".data, "R1".data, 5000⟩
    [] ("1.2.3.4".data) (fun _ => .ok ⟨true⟩) (fun _ => .ok ⟨true⟩)
    (by decide) rfl

/-- The startup phase never issues an update (write) call, whatever the
environment and the network return. -/
theorem startup_no_update (env : EnvVars)
    (znet : ZonesQuery → FetchResult CfZonesResponse)
    (rnet : DnsRecordsQuery → FetchResult CfDnsRecordsResponse) :
    ∀ c ∈ (startup env znet rnet).2, c.isUpdate = false := by
  intro c hc
  obtain ⟨t, n, d⟩ := env
  cases t with
  | none => simp [startup] at hc
  | some tok =>
    cases n with
    | none => simp [startup] at hc
    | some name =>
      cases hz : (get_zone_id tok name znet).1 with
      | error e =>
        simp [startup, hz] at hc
        subst hc
        rfl
      | ok zid =>
        cases hr : (get_record_id tok zid name rnet).1 with
        | error e =>
          simp [startup, hz, hr] at hc
          rcases hc with rfl | rfl <;> rfl
        | ok rid =>
          simp [startup, hz, hr] at hc
          rcases hc with rfl | rfl <;> rfl

/-- C8: startup is fail-fast — a missing `CF_API_TOKEN` or `DNS_NAME`, or
a failing initial zone or record lookup, makes `main` return an error
before entering the loop (tokio then exits the process with a nonzero
status), and no update call is issued during startup. -/
theorem startup_fail_fast (env : EnvVars)
    (znet : ZonesQuery → FetchResult CfZonesResponse)
    (rnet : DnsRecordsQuery → FetchResult CfDnsRecordsResponse)
    (h : env.cf_api_token = none ∨ env.dns_name = none
      ∨ (∃ tok name e, env.cf_api_token = some tok ∧ env.dns_name = some name ∧
          (get_zone_id tok name znet).1 = .error e)
      ∨ (∃ tok name zid e, env.cf_api_token = some tok ∧ env.dns_name = some name ∧
          (get_zone_id tok name znet).1 = .ok zid ∧
          (get_record_id tok zid name rnet).1 = .error e)) :
    (∃ e, (startup env znet rnet).1 = .error e)
    ∧ ∀ c ∈ (startup env znet rnet).2, c.isUpdate = false := by
  refine ⟨?_, startup_no_update env znet rnet⟩
  rcases h with h | h | ⟨tok, name, e, htok, hname, hz⟩ |
    ⟨tok, name, zid, e, htok, hname, hz, hr⟩
  · exact ⟨.configError ("CF_API_TOKEN".data), by simp [startup, h]⟩
  · cases htok : env.cf_api_token with
    | none => exact ⟨.configError ("CF_API_TOKEN".data), by simp [startup, htok]⟩
    | some tok => exact ⟨.configError ("DNS_NAME".data), by simp [startup, htok, h]⟩
  · exact ⟨.lookup e, by simp [startup, htok, hname, hz]⟩
  · exact ⟨.lookup e, by simp [startup, htok, hname, hz, hr]⟩

/-- Witness for C8: with both required variables missing, startup fails
and issues no provider call at all. -/
theorem startup_fail_fast_witness :
    (∃ e, (startup ⟨none, none, none⟩ (fun _ => .transportErr)
      (fun _ => .transportErr)).1 = .error e)
    ∧ ∀ c ∈ (startup ⟨none, none, none⟩ (fun _ => .transportErr)
        (fun _ => .transportErr)).2, c.isUpdate = false :=
  startup_fail_fast ⟨none, none, none⟩ (fun _ => .transportErr)
    (fun _ => .transportErr) (Or.inl rfl)

/-- C9: when public-IP discovery returns an error or no address, the loop
iteration issues no provider call and leaves `last_ip` unchanged (the
zone and record ids live in the immutable `cfg` and are never written
anywhere), proceeding directly to the sleep. -/
theorem loop_skips_on_missing_ip (cfg : Config)
    (net : UpdateRequest → FetchResult CfResponse) (last_ip : Str)
    (res : IpResult) (h : res = .errIp ∨ res = .noIp) :
    loopIter cfg net last_ip res = ⟨last_ip, []⟩ := by
  rcases h with rfl | rfl <;> rfl

/-- Witness for C9: a `Ok(None)` discovery outcome leaves the cached IP
`9.9.9.9` in place and issues no call. -/
theorem loop_skips_on_missing_ip_witness :
    loopIter ⟨"tok".data, "foo.example.com".data, "Z1".data, "R1".data, 5000⟩
      (fun _ => .ok ⟨true⟩) ("9.9.9.9".data) .noIp = ⟨"9.9.9.9".data, []⟩ :=
  loop_skips_on_missing_ip
    ⟨"tok".data, "foo.example.com".data, "Z1".data, "R1".data, 5000⟩
    (fun _ => .ok ⟨true⟩) ("9.9.9.9".data) .noIp (Or.inr rfl)

/-- C10: the poll-interval computation never fails — an unset
`DURATION_SLEEP_MS` or any value that does not parse as a `u64` silently
falls back to 5000 ms, and the value `0` is accepted as-is, yielding a
zero-length sleep. -/
theorem duration_sleep_ms_total (v : Option Str)
    (h : v = none ∨ ∃ s, v = some s ∧ parse_u64 s = none) :
    duration_sleep_ms v = 5000 ∧ duration_sleep_ms (some ("0".data)) = 0 := by
  refine ⟨?_, by decide⟩
  rcases h with rfl | ⟨s, rfl, hs⟩
  · decide
  · simp [duration_sleep_ms, hs]

/-- Witness for C10: the non-numeric value `abc` falls back to 5000 ms,
and `0` is accepted as a zero interval. -/
theorem duration_sleep_ms_total_witness :
    duration_sleep_ms (some ("abc".data)) = 5000
    ∧ duration_sleep_ms (some ("0".data)) = 0 :=
  duration_sleep_ms_total (some ("abc".data))
    (Or.inr ⟨"abc".data, rfl, by decide⟩)

/-- C1 fails on the code: when the provider acknowledges the update PUT
with a well-formed `success:false` body — a soft failure, for which
`update_dns` prints the `[ERR]` line — `update_dns` still returns
`Ok(())`, so the loop body commits `last_ip` to the new IP anyway.  The
cached last-applied-IP then differs from the most recent successfully
written IP (none was ever written), and the next iteration will not
retry.  Evaluated here at `last_ip = ""`, discovered IP `1.2.3.4`. -/
theorem soft_failure_commits_last_ip :
    (loopIter ⟨"tok".data, "foo.example.com".data, "Z1".data, "R1".data, 5000⟩
        (fun _ => .ok ⟨false⟩) [] (.gotIp ("1.2.3.4".data))).last_ip = "1.2.3.4".data
    ∧ (update_dns ("1.2.3.4".data) ("tok".data) ("Z1".data) ("R1".data)
        ("foo.example.com".data) (fun _ => .ok ⟨false⟩)).1.2 = [.errFailedUpdate]
    ∧ (update_dns ("1.2.3.4".data) ("tok".data) ("Z1".data) ("R1".data)
        ("foo.example.com".data) (fun _ => .ok ⟨false⟩)).1.1 = .ok () := by
  refine ⟨?_, rfl, rfl⟩
  rfl

end DdnsAgent
